import Mathlib

/-!
Shallow embedding of the coaching pipeline core of `preflight.oceanheart.ai`
(`apps/preflight-api/app/services/pipeline/{engine,safety,template}.py`,
`app/services/llm/{base,openai_client,anthropic_client}.py`,
`app/routes/coaching.py`), together with proofs settling the frozen claims
about its specification.

The Python `re` module is embedded as a small backtracking regular-expression
engine over `List Char`, covering exactly the constructs the patterns of the repository use: literals (compiled with `re.IGNORECASE`), character classes,
`.`, concatenation, alternation (leftmost alternative preferred), greedy
`*`/`+`/`?`, counted repetition `{n}`, and the zero-width word boundary
`\b`.  Matching is leftmost (earliest start position wins), quantifiers are
greedy with backtracking, as in the CPython engine.
-/

/-- Regular-expression abstract syntax, covering the constructs used by the
patterns in `safety.py` and `template.py`. -/
inductive RE where
  /-- matches the empty string -/
  | eps : RE
  /-- a literal character, compared case-insensitively (`re.IGNORECASE`) -/
  | lit : Char → RE
  /-- a character class `[...]`, given by its membership predicate -/
  | cls : (Char → Bool) → RE
  /-- The `.` — any character except a newline -/
  | dot : RE
  /-- concatenation -/
  | seq : RE → RE → RE
  /-- alternation `a|b`; the left alternative is preferred -/
  | alt : RE → RE → RE
  /-- greedy `a*` -/
  | star : RE → RE
  /-- greedy `a?` -/
  | opt : RE → RE
  /-- the zero-width word boundary `\b` -/
  | bound : RE

/-- Python `\w` over ASCII: `[a-zA-Z0-9_]` (the inputs of the repository are ASCII). -/
def isWordChar (c : Char) : Bool :=
  ('a' ≤ c && c ≤ 'z') || ('A' ≤ c && c ≤ 'Z') || ('0' ≤ c && c ≤ '9') || c = '_'

/-- Structural size of a pattern, used to compute a sufficient fuel bound. -/
def RE.size : RE → Nat
  | .eps => 1
  | .lit _ => 1
  | .cls _ => 1
  | .dot => 1
  | .seq a b => a.size + b.size + 1
  | .alt a b => a.size + b.size + 1
  | .star a => a.size + 1
  | .opt a => a.size + 1
  | .bound => 1

/-- Backtracking matcher in continuation-passing style.  `prev` is the
character immediately before the current position (for `\b`), `k` receives
the previous character and the unconsumed suffix after the sub-match and
returns the suffix remaining after the whole match (`none` = fail).  Greedy
quantifiers try the longer alternative first; `alt` tries the left
alternative first; `star` repeats its body only while it consumes input,
as CPython does.  Fuel only bounds the recursion; every value used by the
theorems is evaluated with enough fuel for the whole search. -/
def RE.m : Nat → RE → Option Char → List Char → (Option Char → List Char → Option (List Char)) → Option (List Char)
  | 0, _, _, _, _ => none
  | _ + 1, .eps, prev, s, k => k prev s
  | _ + 1, .lit c, _, s, k =>
    match s with
    | [] => none
    | d :: rest => if c.toLower = d.toLower then k (some d) rest else none
  | _ + 1, .cls f, _, s, k =>
    match s with
    | [] => none
    | d :: rest => if f d then k (some d) rest else none
  | _ + 1, .dot, _, s, k =>
    match s with
    | [] => none
    | d :: rest => if d = '\n' then none else k (some d) rest
  | fuel + 1, .seq a b, prev, s, k =>
    RE.m fuel a prev s (fun p r => RE.m fuel b p r k)
  | fuel + 1, .alt a b, prev, s, k =>
    (RE.m fuel a prev s k).orElse (fun _ => RE.m fuel b prev s k)
  | fuel + 1, .star a, prev, s, k =>
    (RE.m fuel a prev s (fun p r =>
      if r.length < s.length then RE.m fuel (.star a) p r k else none)).orElse
      (fun _ => k prev s)
  | fuel + 1, .opt a, prev, s, k =>
    (RE.m fuel a prev s k).orElse (fun _ => k prev s)
  | _ + 1, .bound, prev, s, k =>
    let before := match prev with | none => false | some c => isWordChar c
    let after := match s with | [] => false | d :: _ => isWordChar d
    if before ≠ after then k prev s else none

/-- Fuel sufficient for matching `re` against `s`: each `star` iteration
consumes at least one character and one unit of fuel, and each descent
through the pattern consumes at most `size` units. -/
def RE.fuelFor (re : RE) (s : List Char) : Nat :=
  (s.length + 2) * (re.size + 2)

/-- Length of the (leftmost-preferred, greedy) match of `re` at the start of
`s`, with `prev` the character before the position; `none` if no match. -/
def RE.matchAt (re : RE) (prev : Option Char) (s : List Char) : Option Nat :=
  match RE.m (re.fuelFor s) re prev s (fun _ r => some r) with
  | some r => some (s.length - r.length)
  | none => none

/-- The `re.search` scan: try a match at each position from left to right. -/
def RE.searchAux (re : RE) : Option Char → List Char → Bool
  | prev, s =>
    match re.matchAt prev s with
    | some _ => true
    | none =>
      match s with
      | [] => false
      | c :: rest => re.searchAux (some c) rest

/-- The `pattern.search(s) is not None` for a compiled pattern. -/
def RE.search (re : RE) (s : String) : Bool :=
  re.searchAux none s.toList

/-- Scanner behind `pattern.sub(repl, s)`: find leftmost non-overlapping
matches and replace each with `repl` applied to the matched span (in Python, `repl` may be a function of the match).  A position with no match, or with
a zero-width match, emits one character and moves on (no pattern of the repository matches the empty string). -/
def RE.subAuxF (re : RE) (repl : List Char → List Char) : Nat → Option Char → List Char → List Char
  | 0, _, s => s
  | fuel + 1, prev, s =>
    match re.matchAt prev s with
    | none =>
      match s with
      | [] => []
      | c :: rest => c :: re.subAuxF repl fuel (some c) rest
    | some 0 =>
      match s with
      | [] => []
      | c :: rest => c :: re.subAuxF repl fuel (some c) rest
    | some (n + 1) =>
      repl (s.take (n + 1)) ++ re.subAuxF repl fuel ((s.take (n + 1)).getLast?) (s.drop (n + 1))

/-- The `pattern.sub(repl, s)` with a function replacement. -/
def RE.subF (re : RE) (repl : List Char → List Char) (s : String) : String :=
  String.mk (re.subAuxF repl (s.length + 1) none s.toList)

/-- The `pattern.sub(repl, s)` with a constant string replacement. -/
def RE.sub (re : RE) (repl : String) (s : String) : String :=
  re.subF (fun _ => repl.toList) s

/-- The `a{n}`: `n`-fold repetition. -/
def RE.rep : Nat → RE → RE
  | 0, _ => .eps
  | n + 1, a => .seq a (RE.rep n a)

/-- The `a+` (greedy). -/
def RE.plus (a : RE) : RE := .seq a (.star a)

/-- A literal word, character by character. -/
def RE.chars (s : String) : RE :=
  s.toList.foldr (fun c acc => RE.seq (.lit c) acc) .eps

/-- Pattern `\d` (ASCII). -/
def REdigit : RE := .cls fun c => '0' ≤ c && c ≤ '9'

/-- Pattern `\s`: Python whitespace class. -/
def REspace : RE := .cls fun c =>
  c = ' ' || c = '\t' || c = '\n' || c = '\r' || c = '\x0b' || c = '\x0c'

/-! ### `safety.py` — the `SafetyFilter` patterns

One definition per entry of `MEDICAL_DIAGNOSIS_PATTERNS`,
`PERSONAL_INFO_PATTERNS` and `HARMFUL_PATTERNS`, transcribed from the
regex source text (all compiled with `re.IGNORECASE`). -/

/-- Class `[-.]` -/
def REdashDot : RE := .cls fun c => c = '-' || c = '.'

/-- Class `[a-zA-Z]` -/
def REasciiAlpha : RE := .cls fun c => ('a' ≤ c && c ≤ 'z') || ('A' ≤ c && c ≤ 'Z')

/-- Class `[a-zA-Z0-9._%+-]` (e-mail local part) -/
def REemailLocal : RE := .cls fun c =>
  ('a' ≤ c && c ≤ 'z') || ('A' ≤ c && c ≤ 'Z') || ('0' ≤ c && c ≤ '9') ||
  c = '.' || c = '_' || c = '%' || c = '+' || c = '-'

/-- Class `[a-zA-Z0-9.-]` (e-mail domain part) -/
def REemailDomain : RE := .cls fun c =>
  ('a' ≤ c && c ≤ 'z') || ('A' ≤ c && c ≤ 'Z') || ('0' ≤ c && c ≤ '9') ||
  c = '.' || c = '-'

/-- Pattern `\b(\d{3}[-.]?\d{3}[-.]?\d{4})\b` — phone numbers. -/
def phonePattern : RE :=
  .seq .bound (.seq (RE.rep 3 REdigit) (.seq (.opt REdashDot)
    (.seq (RE.rep 3 REdigit) (.seq (.opt REdashDot)
      (.seq (RE.rep 4 REdigit) .bound)))))

/-- Pattern `\b([a-zA-Z0-9._%+-]+@[a-zA-Z0-9.-]+\.[a-zA-Z]{2,})\b` — e-mail. -/
def emailPattern : RE :=
  .seq .bound (.seq (RE.plus REemailLocal) (.seq (.lit '@')
    (.seq (RE.plus REemailDomain) (.seq (.lit '.')
      (.seq (RE.rep 2 REasciiAlpha) (.seq (.star REasciiAlpha) .bound))))))

/-- Pattern `\b(\d{3}[-]?\d{2}[-]?\d{4})\b` — SSN-shaped digit groups. -/
def ssnPattern : RE :=
  .seq .bound (.seq (RE.rep 3 REdigit) (.seq (.opt (.cls fun c => c = '-'))
    (.seq (RE.rep 2 REdigit) (.seq (.opt (.cls fun c => c = '-'))
      (.seq (RE.rep 4 REdigit) .bound)))))

/-- Pattern `\b(\d{16})\b` — 16-digit card-shaped digit groups. -/
def cardPattern : RE :=
  .seq .bound (.seq (RE.rep 16 REdigit) .bound)

/-- Pattern `\b(kill|harm|hurt|injure)\s+(yourself|myself|themselves)\b` -/
def harmfulPattern1 : RE :=
  .seq .bound (.seq
    (.alt (RE.chars "kill") (.alt (RE.chars "harm") (.alt (RE.chars "hurt") (RE.chars "injure"))))
    (.seq (RE.plus REspace)
      (.seq (.alt (RE.chars "yourself") (.alt (RE.chars "myself") (RE.chars "themselves")))
        .bound)))

/-- Pattern `\b(suicide|self[- ]harm)\b` -/
def harmfulPattern2 : RE :=
  .seq .bound (.seq
    (.alt (RE.chars "suicide")
      (.seq (RE.chars "self") (.seq (.cls fun c => c = '-' || c = ' ') (RE.chars "harm"))))
    .bound)

/-- Pattern `\b(diagnos(?:e|is|ing)|diagnosed)\b` -/
def medicalPattern1 : RE :=
  .seq .bound (.seq
    (.alt (.seq (RE.chars "diagnos") (.alt (RE.chars "e") (.alt (RE.chars "is") (RE.chars "ing"))))
      (RE.chars "diagnosed"))
    .bound)

/-- Pattern `\b(prescrib(?:e|ed|ing)|prescription)\b` -/
def medicalPattern2 : RE :=
  .seq .bound (.seq
    (.alt (.seq (RE.chars "prescrib") (.alt (RE.chars "e") (.alt (RE.chars "ed") (RE.chars "ing"))))
      (RE.chars "prescription"))
    .bound)

/-- Pattern `\b(treat(?:ment|ing)?|treated)\b.*\b(condition|disease|illness)\b` -/
def medicalPattern3 : RE :=
  .seq .bound (.seq
    (.alt (.seq (RE.chars "treat") (.opt (.alt (RE.chars "ment") (RE.chars "ing"))))
      (RE.chars "treated"))
    (.seq .bound (.seq (.star .dot)
      (.seq .bound (.seq
        (.alt (RE.chars "condition") (.alt (RE.chars "disease") (RE.chars "illness")))
        .bound)))))

/-- Pattern `\b(you (have|should take|need to take))\b.*\b(medication|medicine|drug)\b` -/
def medicalPattern4 : RE :=
  .seq .bound (.seq (RE.chars "you ")
    (.seq (.alt (RE.chars "have") (.alt (RE.chars "should take") (RE.chars "need to take")))
      (.seq .bound (.seq (.star .dot)
        (.seq .bound (.seq
          (.alt (RE.chars "medication") (.alt (RE.chars "medicine") (RE.chars "drug")))
          .bound))))))

/-- Pattern `\b(clinical (recommendation|advice))\b` -/
def medicalPattern5 : RE :=
  .seq .bound (.seq (RE.chars "clinical ")
    (.seq (.alt (RE.chars "recommendation") (RE.chars "advice")) .bound))

/-- The `SafetyFilter.MEDICAL_DIAGNOSIS_PATTERNS`, compiled and in source order. -/
def medicalPatterns : List RE :=
  [medicalPattern1, medicalPattern2, medicalPattern3, medicalPattern4, medicalPattern5]

/-- The `SafetyFilter.PERSONAL_INFO_PATTERNS`, compiled and in source order. -/
def personalPatterns : List RE :=
  [phonePattern, emailPattern, ssnPattern, cardPattern]

/-- The `SafetyFilter.HARMFUL_PATTERNS`, compiled and in source order. -/
def harmfulPatterns : List RE :=
  [harmfulPattern1, harmfulPattern2]

/-! ### `safety.py` — `SafetyViolationType`, `SafetyCheckResult`, `SafetyFilter` -/

/-- The `SafetyViolationType` enum. -/
inductive SafetyViolationType where
  | medical_advice
  | personal_info
  | harmful_content
  | off_topic
  | none
deriving DecidableEq, Repr

/-- The `SafetyCheckResult` dataclass. -/
structure SafetyCheckResult where
  is_safe : Bool
  violation_type : SafetyViolationType
  message : Option String := Option.none
  redacted_content : Option String := Option.none
deriving DecidableEq, Repr

/-- The `SafetyFilter.SAFETY_SYSTEM_PROMPT` (verbatim; `\x27` is an apostrophe). -/
def SAFETY_SYSTEM_PROMPT : String :=
  "You are a collaborative AI coach for healthcare professionals.\n\nCRITICAL RULES YOU MUST FOLLOW:\n1. NEVER provide medical diagnosis or treatment recommendations\n2. NEVER suggest specific medications or clinical interventions\n3. NEVER retain or ask for personal identifying information\n4. ALWAYS redirect medical questions to appropriate professionals\n5. ALWAYS maintain professional coaching boundaries\n\nYour role is to ask thoughtful questions that help professionals explore their challenges, NOT to provide medical advice.\n\nIf the user asks for medical advice, respond with:\n\"I\x27m not able to provide medical advice or diagnoses. I\x27m here to help you explore your professional challenges and growth through coaching questions. Would you like to discuss how to approach this challenge from a professional development perspective?\"\n\nIf you detect concerning content about self-harm, respond with:\n\"I want to make sure you\x27re okay. If you\x27re experiencing thoughts of self-harm, please reach out to a mental health professional or crisis helpline immediately. In the US, you can call 988 for the Suicide & Crisis Lifeline.\"\n"

/-- The `SafetyFilter.check_input`: harmful-content patterns first (first match
wins, unsafe, no redaction), then personal-info patterns (first matching
pattern redacts via its own `sub`, result stays safe), else safe/none. -/
def SafetyFilter.check_input (content : String) : SafetyCheckResult :=
  match harmfulPatterns.find? (fun p => p.search content) with
  | some _ =>
    { is_safe := false
      violation_type := .harmful_content
      message := some "Content flagged for safety review" }
  | Option.none =>
    match personalPatterns.find? (fun p => p.search content) with
    | some p =>
      { is_safe := true
        violation_type := .personal_info
        message := some "Personal information detected and redacted"
        redacted_content := some (p.sub "[REDACTED]" content) }
    | Option.none =>
      { is_safe := true, violation_type := .none }

/-- The `SafetyFilter.check_output`: medical-diagnosis patterns only. -/
def SafetyFilter.check_output (content : String) : SafetyCheckResult :=
  match medicalPatterns.find? (fun p => p.search content) with
  | some _ =>
    { is_safe := false
      violation_type := .medical_advice
      message := some "Response contains potential medical advice" }
  | Option.none =>
    { is_safe := true, violation_type := .none }

/-- The `SafetyFilter.get_safety_system_prompt`. -/
def SafetyFilter.get_safety_system_prompt : String := SAFETY_SYSTEM_PROMPT

/-- The `SafetyFilter.sanitize_input`: redact with every personal-info pattern
in turn (unlike `check_input`, which uses only the first matching one). -/
def SafetyFilter.sanitize_input (content : String) : String :=
  personalPatterns.foldl (fun result p => p.sub "[REDACTED]" result) content

/-- The `SafetyFilter.get_fallback_response`: canned texts for the three
violation types in the `fallbacks` dict, `None` otherwise
(`\x27` is an apostrophe). -/
def SafetyFilter.get_fallback_response : SafetyViolationType → Option String
  | .medical_advice => some
      "I appreciate you sharing that with me. As an AI coach, I\x27m not able to provide medical advice or diagnoses. However, I\x27d be happy to help you explore this from a professional development perspective. What aspects of this situation feel most challenging for you professionally?"
  | .harmful_content => some
      "I want to make sure you\x27re okay. If you\x27re experiencing thoughts of self-harm, please reach out to a mental health professional or crisis helpline immediately. In the US, you can call 988 for the Suicide & Crisis Lifeline. Would you like to talk about what\x27s on your mind in a different way?"
  | .off_topic => some
      "I\x27d like to bring our conversation back to your professional development goals. What aspect of your AI readiness journey would you like to explore?"
  | _ => Option.none

/-! ### `template.py` — `TemplateEngine` -/

/-- Python values that can appear in a template context
(`None`, bool, int, str, list, dict). -/
inductive Value where
  | vnone : Value
  | vbool : Bool → Value
  | vint : Int → Value
  | vstr : String → Value
  | vlist : List Value → Value
  | vdict : List (String × Value) → Value
deriving Repr

/-- The `str.split(".")`: split on every dot; never returns an empty list
(`"".split(".") == [""]`). -/
def splitDot : List Char → List (List Char)
  | [] => [[]]
  | c :: rest =>
    match splitDot rest with
    | [] => [[c]]
    | h :: t => if c = '.' then [] :: h :: t else (c :: h) :: t

/-- The `dict.get(key)` on a Python dict (unique keys), as association-list lookup. -/
def dictGet : List (String × Value) → String → Option Value
  | [], _ => Option.none
  | (k, v) :: rest, key => if k = key then some v else dictGet rest key

/-- The loop of `TemplateEngine._get_nested_value`: walk the dot-path
through nested dicts; any missing segment, any `None` value, or any
traversal step on a non-dict yields `None`. -/
def getNestedWalk : Value → List String → Option Value
  | current, [] => some current
  | current, part :: rest =>
    match current with
    | .vdict entries =>
      match dictGet entries part with
      | Option.none => Option.none
      | some .vnone => Option.none
      | some v => getNestedWalk v rest
    | _ => Option.none

/-- The `TemplateEngine._get_nested_value(data, path)`. -/
def TemplateEngine.getNestedValue (data : Value) (path : String) : Option Value :=
  getNestedWalk data ((splitDot path.toList).map String.mk)

mutual

/-- Python `str(value)` (approximated for containers; the container cases
are never exercised by the claims below). `\x7b`/`\x7d` are braces. -/
def pyStr : Value → String
  | .vnone => "None"
  | .vbool b => if b then "True" else "False"
  | .vint n => toString n
  | .vstr s => s
  | .vlist xs => "[" ++ String.intercalate ", " (pyReprList xs) ++ "]"
  | .vdict xs => "\x7b" ++ String.intercalate ", " (pyReprEntries xs) ++ "\x7d"

def pyRepr : Value → String
  | .vstr s => "\x27" ++ s ++ "\x27"
  | .vnone => "None"
  | .vbool b => if b then "True" else "False"
  | .vint n => toString n
  | .vlist xs => "[" ++ String.intercalate ", " (pyReprList xs) ++ "]"
  | .vdict xs => "\x7b" ++ String.intercalate ", " (pyReprEntries xs) ++ "\x7d"

def pyReprList : List Value → List String
  | [] => []
  | v :: rest => pyRepr v :: pyReprList rest

def pyReprEntries : List (String × Value) → List String
  | [] => []
  | (k, v) :: rest => ("\x27" ++ k ++ "\x27: " ++ pyRepr v) :: pyReprEntries rest

end

/-- Is this a Python `str`? (`isinstance(x, str)`) -/
def Value.isStr : Value → Bool
  | .vstr _ => true
  | _ => false

mutual

/-- The `TemplateEngine._format_value`: bool ↦ yes/no, all-string list ↦
comma-joined, other list ↦ `str(value)`, dict ↦ `- key: value` lines,
else `str(value)`. -/
def TemplateEngine.formatValue : Value → String
  | .vbool b => if b then "yes" else "no"
  | .vlist xs =>
    if xs.all Value.isStr then
      String.intercalate ", " (xs.map pyStr)
    else
      pyStr (.vlist xs)
  | .vdict xs => String.intercalate "\n" (TemplateEngine.formatEntries xs)
  | v => pyStr v

def TemplateEngine.formatEntries : List (String × Value) → List String
  | [] => []
  | (k, v) :: rest =>
    ("- " ++ k ++ ": " ++ TemplateEngine.formatValue v) :: TemplateEngine.formatEntries rest

end

/-- The `TemplateEngine.VARIABLE_PATTERN`:
the regex source is two braces, `[a-zA-Z_]`, `[a-zA-Z0-9_.]*`, two braces. -/
def VARIABLE_PATTERN : RE :=
  .seq (.lit '{') (.seq (.lit '{')
    (.seq (.cls fun c => ('a' ≤ c && c ≤ 'z') || ('A' ≤ c && c ≤ 'Z') || c = '_')
      (.seq (.star (.cls fun c =>
          ('a' ≤ c && c ≤ 'z') || ('A' ≤ c && c ≤ 'Z') || ('0' ≤ c && c ≤ '9') ||
          c = '_' || c = '.'))
        (.seq (.lit '}') (.lit '}')))))

/-- The `replace_var` closure inside `TemplateEngine.substitute`: `m` is the
whole match (group 0), its group 1 is the match with the surrounding brace
pairs stripped; a failed lookup keeps the original placeholder. -/
def replaceVar (vars : Value) (m : List Char) : List Char :=
  match TemplateEngine.getNestedValue vars (String.mk ((m.drop 2).dropLast.dropLast)) with
  | Option.none => m
  | some value => (TemplateEngine.formatValue value).toList

/-- The `TemplateEngine.substitute(template, variables)`. -/
def TemplateEngine.substitute (template : String) (vars : Value) : String :=
  VARIABLE_PATTERN.subF (replaceVar vars) template

/-! ### `llm/base.py` — message and response types -/

/-- The `MessageRole` enum. -/
inductive MessageRole where
  | system
  | user
  | assistant
deriving DecidableEq, Repr

/-- The `.value` of a `MessageRole` member. -/
def MessageRole.value : MessageRole → String
  | .system => "system"
  | .user => "user"
  | .assistant => "assistant"

/-- The `MessageRole(s)`: enum lookup by value; `none` models the `ValueError`
raised on an unknown value. -/
def MessageRole.ofValue : String → Option MessageRole
  | "system" => some .system
  | "user" => some .user
  | "assistant" => some .assistant
  | _ => Option.none

/-- The `Message` dataclass. -/
structure Message where
  role : MessageRole
  content : String
  name : Option String := Option.none
deriving DecidableEq, Repr

/-- The `LLMProvider` enum. -/
inductive LLMProvider where
  | openai
  | anthropic
deriving DecidableEq, Repr

/-- The `LLMConfig` dataclass (floats modelled as exact rationals). -/
structure LLMConfig where
  model : String
  temperature : ℚ := 0.7
  max_tokens : Nat := 150
  timeout : Nat := 45
  top_p : ℚ := 1.0
  frequency_penalty : ℚ := 0.0
  presence_penalty : ℚ := 0.0
  stop_sequences : List String := []
deriving DecidableEq, Repr

/-- The `LLMResponse` dataclass (the wall-clock `timestamp` is modelled as an
uninterpreted number supplied with the response). -/
structure LLMResponse where
  content : String
  model : String
  provider : LLMProvider
  finish_reason : String
  prompt_tokens : Nat
  completion_tokens : Nat
  total_tokens : Nat
  response_time_ms : Nat
  timestamp : Nat := 0
deriving DecidableEq, Repr

/-! ### `pipeline/engine.py` — `PipelineEngine` -/

/-- The `PipelineExecutionResult` dataclass. -/
structure PipelineExecutionResult where
  success : Bool
  response : Option String := Option.none
  llm_response : Option LLMResponse := Option.none
  safety_check : Option SafetyCheckResult := Option.none
  error : Option String := Option.none
  used_fallback : Bool := false
deriving DecidableEq, Repr

/-- The pipeline configuration dict, restricted to the keys the engine reads
with `.get`; an absent field models an absent key. -/
structure Pipeline where
  system_prompt : Option String := Option.none
  initial_prompt : Option String := Option.none
  model : Option String := Option.none
  temperature : Option ℚ := Option.none
  max_tokens : Option Nat := Option.none
deriving DecidableEq, Repr

/-- One entry of `conversation_history`: a dict read with
`turn.get("role", "user")` and `turn.get("content", "")`. -/
structure Turn where
  role : Option String := Option.none
  content : Option String := Option.none
deriving DecidableEq, Repr

/-- Python `x or y` on an optional string (`None` and `""` are falsy). -/
def pyOrStr (x : Option String) (y : String) : String :=
  match x with
  | some s => if s = "" then y else s
  | Option.none => y

/-- The history loop in `build_messages`: the role of each turn is parsed with
`MessageRole(turn.get("role", "user"))`, which raises `ValueError` on an
unknown role (modelled as `Except.error` with the `ValueError` text,
`\x27` is an apostrophe); the first bad turn aborts the loop. -/
def historyMessages : List Turn → Except String (List Message)
  | [] => Except.ok []
  | turn :: rest =>
    match MessageRole.ofValue (turn.role.getD "user") with
    | some role =>
      match historyMessages rest with
      | Except.ok ms =>
        Except.ok (({ role := role, content := turn.content.getD "" } : Message) :: ms)
      | Except.error e => Except.error e
    | Option.none =>
      Except.error ("\x27" ++ turn.role.getD "user" ++ "\x27 is not a valid MessageRole")

/-- The optional second system message of `build_messages` and
`generate_initial_message`: present when the pipeline defines a non-empty
system prompt, rendered against the context. -/
def pipelineSystemMessages (pipeline : Pipeline) (context : Value) : List Message :=
  if pipeline.system_prompt.getD "" ≠ "" then
    [{ role := .system,
       content := TemplateEngine.substitute (pipeline.system_prompt.getD "") context }]
  else []

/-- The `PipelineEngine.build_messages`: safety system prompt first, then the
rendered pipeline system prompt when non-empty, then each history turn,
then the current user message. -/
def PipelineEngine.build_messages (pipeline : Pipeline) (context : Value)
    (conversation_history : List Turn) (user_message : String) :
    Except String (List Message) :=
  match historyMessages conversation_history with
  | Except.error e => Except.error e
  | Except.ok hist =>
    Except.ok
      ([{ role := .system, content := SafetyFilter.get_safety_system_prompt }] ++
        pipelineSystemMessages pipeline context ++ hist ++
        [{ role := .user, content := user_message }])

/-- The `LLMConfig` built by `execute_round` when none is supplied. -/
def PipelineEngine.roundConfig (pipeline : Pipeline) (config : Option LLMConfig) : LLMConfig :=
  config.getD
    { model := pipeline.model.getD "gpt-4-turbo"
      temperature := pipeline.temperature.getD 0.7
      max_tokens := pipeline.max_tokens.getD 150
      timeout := 45 }

/-- The body of the `try` block in `execute_round`, as a function of the
outcome of the LLM call (a raised exception modelled as `Except.error` of its
`str(e)` text): an exception is captured as `success=false`; on success
the output is screened and an unsafe output with a non-empty fallback text
is replaced by it, keeping the real `llm_response` and the safety check. -/
def roundOutcome (outcome : Except String LLMResponse) : PipelineExecutionResult :=
  match outcome with
  | Except.error e => { success := false, error := some e }
  | Except.ok llm_response =>
    if ¬ (SafetyFilter.check_output llm_response.content).is_safe then
      match SafetyFilter.get_fallback_response
          (SafetyFilter.check_output llm_response.content).violation_type with
      | some fallback =>
        if fallback ≠ "" then
          { success := true
            response := some fallback
            llm_response := some llm_response
            safety_check := some (SafetyFilter.check_output llm_response.content)
            used_fallback := true }
        else
          { success := true
            response := some llm_response.content
            llm_response := some llm_response
            safety_check := some (SafetyFilter.check_output llm_response.content) }
      | Option.none =>
        { success := true
          response := some llm_response.content
          llm_response := some llm_response
          safety_check := some (SafetyFilter.check_output llm_response.content) }
    else
      { success := true
        response := some llm_response.content
        llm_response := some llm_response
        safety_check := some (SafetyFilter.check_output llm_response.content) }

/-- The `PipelineEngine.execute_round`.  The LLM service is a parameter
(`llm messages config` is `await self.llm_service.generate_response(...)`).
Only the LLM call is inside `try`; an exception from `build_messages`
propagates (outer `Except.error`). -/
def PipelineEngine.execute_round
    (llm : List Message → LLMConfig → Except String LLMResponse)
    (pipeline : Pipeline) (context : Value) (conversation_history : List Turn)
    (user_message : String) (config : Option LLMConfig) :
    Except String PipelineExecutionResult :=
  if ¬ (SafetyFilter.check_input user_message).is_safe ∧
      (SafetyFilter.check_input user_message).violation_type = .harmful_content then
    Except.ok
      { success := true
        response := SafetyFilter.get_fallback_response
          (SafetyFilter.check_input user_message).violation_type
        safety_check := some (SafetyFilter.check_input user_message)
        used_fallback := true }
  else
    match PipelineEngine.build_messages pipeline context conversation_history
        (pyOrStr (SafetyFilter.check_input user_message).redacted_content user_message) with
    | Except.error e => Except.error e
    | Except.ok messages =>
      Except.ok (roundOutcome (llm messages (PipelineEngine.roundConfig pipeline config)))

/-- The built-in default initial prompt in `generate_initial_message`. -/
def defaultInitialPrompt : String :=
  "Based on the survey responses provided, introduce yourself as an AI coach and ask an open-ended question to begin exploring the user\x27s challenges and goals. Be warm, professional, and curious."

/-- The message list `generate_initial_message` sends: safety prompt,
rendered pipeline system prompt when non-empty, and the rendered initial
prompt (or the built-in default) as a user-role instruction. -/
def PipelineEngine.initialMessages (pipeline : Pipeline) (context : Value) : List Message :=
  let initial_prompt := pyOrStr pipeline.initial_prompt defaultInitialPrompt
  let substituted := TemplateEngine.substitute initial_prompt context
  [{ role := .system, content := SafetyFilter.get_safety_system_prompt }] ++
    pipelineSystemMessages pipeline context ++
    [{ role := .user, content := substituted }]

/-- The `LLMConfig` built by `generate_initial_message` when none is
supplied (`max_tokens` defaults to 200 here, not 150). -/
def PipelineEngine.initialConfig (pipeline : Pipeline) (config : Option LLMConfig) : LLMConfig :=
  config.getD
    { model := pipeline.model.getD "gpt-4-turbo"
      temperature := pipeline.temperature.getD 0.7
      max_tokens := pipeline.max_tokens.getD 200
      timeout := 45 }

/-- The `PipelineEngine.generate_initial_message`: no history, no output
screening; an LLM exception is captured as `success=false`. -/
def PipelineEngine.generate_initial_message
    (llm : List Message → LLMConfig → Except String LLMResponse)
    (pipeline : Pipeline) (context : Value) (config : Option LLMConfig) :
    Except String PipelineExecutionResult :=
  match llm (PipelineEngine.initialMessages pipeline context)
      (PipelineEngine.initialConfig pipeline config) with
  | Except.ok llm_response =>
    Except.ok
      { success := true
        response := some llm_response.content
        llm_response := some llm_response }
  | Except.error e =>
    Except.ok { success := false, error := some e }

/-! ### `llm/anthropic_client.py` — `AnthropicClient._convert_messages` -/

/-- The loop of `_convert_messages`: a system message overwrites the
`system_prompt` variable; any other message is appended, as a
`(role.value, content)` dict, to the Anthropic message list. -/
def convertMessagesLoop :
    Option String → List (String × String) → List Message → Option String × List (String × String)
  | system_prompt, acc, [] => (system_prompt, acc)
  | system_prompt, acc, msg :: rest =>
    if msg.role = .system then
      convertMessagesLoop (some msg.content) acc rest
    else
      convertMessagesLoop system_prompt (acc ++ [(msg.role.value, msg.content)]) rest

/-- The `AnthropicClient._convert_messages(messages)`. -/
def AnthropicClient.convertMessages (messages : List Message) :
    Option String × List (String × String) :=
  convertMessagesLoop Option.none [] messages

/-- Content of the last system-role message of a list, if any. -/
def lastSystemContent : List Message → Option String
  | [] => Option.none
  | msg :: rest =>
    match lastSystemContent rest with
    | some c => some c
    | Option.none => if msg.role = .system then some msg.content else Option.none

/-- Non-system messages as `(role.value, content)` pairs. -/
def nonSystemPairs (messages : List Message) : List (String × String) :=
  messages.filterMap fun msg =>
    if msg.role = .system then Option.none else some (msg.role.value, msg.content)

/-! ### `llm/openai_client.py` — `generate_response` and its retry decorator

The SDK exception hierarchy (from the `openai` package) and the
application exception taxonomy (from `llm/base.py`) live in one type so
that `isinstance` tests can be modelled: `RateLimitError`,
`AuthenticationError` and `BadRequestError` of the SDK all subclass the
SDK `APIError`, while the application types `RateLimitError`,
`AuthenticationError`, `InvalidRequestError` and `LLMError` subclass only
`LLMError`/`Exception`. -/

/-- Exceptions that can cross the boundary of `generate_response`. -/
inductive PyExc where
  /-- the SDK `RateLimitError` -/
  | sdkRateLimit : String → PyExc
  /-- the SDK `AuthenticationError` -/
  | sdkAuth : String → PyExc
  /-- the SDK `BadRequestError` -/
  | sdkBadRequest : String → PyExc
  /-- any other SDK `APIError` (carries `getattr(e, "status_code", ...)`) -/
  | sdkAPIError : String → Option Nat → PyExc
  /-- the application `RateLimitError(message, provider, status_code, retry_after)` -/
  | appRateLimit : String → Nat → Nat → PyExc
  /-- the application `AuthenticationError(message, provider, status_code)` -/
  | appAuth : String → Nat → PyExc
  /-- the application `InvalidRequestError(message, provider, status_code)` -/
  | appInvalidRequest : String → Nat → PyExc
  /-- the application generic `LLMError(message, provider, status_code)` -/
  | appLLMError : String → Nat → PyExc
deriving DecidableEq, Repr

/-- The `isinstance(e, openai.RateLimitError)`. -/
def PyExc.isSdkRateLimit : PyExc → Bool
  | .sdkRateLimit _ => true
  | _ => false

/-- The `isinstance(e, openai.APIError)`: true for every SDK exception (the
specific SDK errors subclass `APIError`), false for the application
taxonomy (subclasses of `LLMError(Exception)` only). -/
def PyExc.isSdkAPIError : PyExc → Bool
  | .sdkRateLimit _ => true
  | .sdkAuth _ => true
  | .sdkBadRequest _ => true
  | .sdkAPIError _ _ => true
  | _ => false

/-- The `retry_if_exception_type((RateLimitError, APIError))` with the SDK
exception classes, as passed to the `@retry` decorator. -/
def retryPredicate (e : PyExc) : Bool :=
  e.isSdkRateLimit || e.isSdkAPIError

/-- The `try/except` translation in the body of
`OpenAIClient.generate_response`: each caught SDK error is re-raised as
the corresponding application error (`RateLimitError` with
status 429 / retry-after 60, `AuthenticationError` 401,
`InvalidRequestError` 400, generic `LLMError` with
`getattr(e, "status_code", 500)`); anything else propagates unchanged. -/
def openaiTranslate : PyExc → PyExc
  | .sdkRateLimit m => .appRateLimit m 429 60
  | .sdkAuth m => .appAuth m 401
  | .sdkBadRequest m => .appInvalidRequest m 400
  | .sdkAPIError m st => .appLLMError m (st.getD 500)
  | e => e

/-- One attempt of the decorated function: run the backend call and apply
the exception translation of the body to a raised error. -/
def openaiAttempt (backend : Nat → Except PyExc LLMResponse) (i : Nat) :
    Except PyExc LLMResponse :=
  match backend i with
  | Except.ok r => Except.ok r
  | Except.error e => Except.error (openaiTranslate e)

/-- Model of the tenacity `wait_exponential(multiplier=1, min=2, max=30)`: the wait
before re-running after failed attempt number `n` (1-based). -/
def waitExponential (multiplier lo hi n : Nat) : Nat :=
  max lo (min hi (multiplier * 2 ^ (n - 1)))

/-- The `tenacity` retry loop with `stop_after_attempt`: run the attempt; on an
exception satisfying the retry predicate, retry while attempts remain,
recording the backoff wait; otherwise re-raise.  Returns the outcome, the
number of attempts made, and the waits slept between attempts. -/
def tenacityRun (pred : PyExc → Bool) (attempt : Nat → Except PyExc LLMResponse) :
    Nat → Nat → Except PyExc LLMResponse × Nat × List Nat
  | remaining, i =>
    match attempt i with
    | Except.ok r => (Except.ok r, i + 1, [])
    | Except.error e =>
      match remaining with
      | 0 => (Except.error e, i + 1, [])
      | r + 1 =>
        if pred e then
          let rest := tenacityRun pred attempt r (i + 1)
          (rest.1, rest.2.1, waitExponential 1 2 30 (i + 1) :: rest.2.2)
        else
          (Except.error e, i + 1, [])

/-- The `OpenAIClient.generate_response` as decorated: `stop_after_attempt(3)`
allows at most 3 attempts; `backend i` is the `i`-th would-be API call. -/
def OpenAIClient.generate_response (backend : Nat → Except PyExc LLMResponse) :
    Except PyExc LLMResponse × Nat × List Nat :=
  tenacityRun retryPredicate (openaiAttempt backend) 2 0

/-! ### `routes/coaching.py` — session round bookkeeping -/

/-- Session status strings used by the routes. -/
inductive SessionStatus where
  | active
  | completed
  | abandoned
deriving DecidableEq, Repr

/-- The status string stored in the database. -/
def SessionStatus.value : SessionStatus → String
  | .active => "active"
  | .completed => "completed"
  | .abandoned => "abandoned"

/-- The session fields `send_message` reads and writes. -/
structure CoachingSession where
  status : SessionStatus
  current_round : Nat
  max_rounds : Nat
deriving DecidableEq, Repr

/-- Session creation in `start_coaching`: `status="active"`,
`current_round=1` (the code fixes `max_rounds=4`; it is a parameter here
so that the scenario of the claim can be stated). -/
def startCoachingSession (max_rounds : Nat) : CoachingSession :=
  { status := .active, current_round := 1, max_rounds := max_rounds }

/-- The session checks and updates of `send_message` for a round whose
`execute_round` succeeds: reject unless the status is `active`; reject
when `current_round >= max_rounds`; otherwise increment the round, and
mark the session completed when `max_rounds - current_round <= 0`
(computed over ℤ, as in Python).  An `Except.error` is the
`HTTPException` detail text. -/
def sendMessage (session : CoachingSession) : Except String CoachingSession :=
  if session.status ≠ .active then
    Except.error ("Coaching session is " ++ session.status.value)
  else if session.current_round ≥ session.max_rounds then
    Except.error ("Maximum rounds (" ++ toString session.max_rounds ++ ") reached")
  else
    let session := { session with current_round := session.current_round + 1 }
    let remaining : Int := (session.max_rounds : Int) - (session.current_round : Int)
    if remaining ≤ 0 then
      Except.ok { session with status := .completed }
    else
      Except.ok session

/-! ### Helper lemmas shared by the claim proofs -/

/-- Rebuilding a string from its character list is the identity. -/
theorem String.mk_toList (s : String) : String.mk s.toList = s := by
  cases s
  rfl

/-- If the replacement function returns every matched span unchanged, the
substitution scanner is the identity, whatever the fuel. -/
theorem RE.subAuxF_id (re : RE) (repl : List Char → List Char)
    (h : ∀ m, repl m = m) :
    ∀ fuel prev s, re.subAuxF repl fuel prev s = s := by
  intro fuel
  induction fuel with
  | zero => intro prev s; rfl
  | succ n ih =>
    intro prev s
    unfold RE.subAuxF
    cases hm : re.matchAt prev s with
    | none =>
      cases s with
      | nil => rfl
      | cons c rest => simp [ih]
    | some k =>
      cases k with
      | zero =>
        cases s with
        | nil => rfl
        | cons c rest => simp [ih]
      | succ n2 =>
        simp [h, ih, List.take_append_drop]

/-- The `str.split(".")` never yields an empty list. -/
theorem splitDot_ne_nil (s : List Char) : splitDot s ≠ [] := by
  cases s with
  | nil => simp [splitDot]
  | cons c rest =>
    unfold splitDot
    cases splitDot rest with
    | nil => simp
    | cons h t => by_cases hc : c = '.' <;> simp [hc]

/-- Every dot-path lookup in the empty context fails. -/
theorem getNestedValue_empty (path : String) :
    TemplateEngine.getNestedValue (.vdict []) path = Option.none := by
  unfold TemplateEngine.getNestedValue
  cases hs : splitDot path.toList with
  | nil => exact absurd hs (splitDot_ne_nil _)
  | cons h t => simp [getNestedWalk, dictGet]

/-- Any input matching a harmful-content pattern classifies as
unsafe/`harmful_content`, with no redaction. -/
theorem check_input_of_harmful (content : String)
    (h : ∃ p ∈ harmfulPatterns, p.search content = true) :
    SafetyFilter.check_input content =
      { is_safe := false
        violation_type := .harmful_content
        message := some "Content flagged for safety review" } := by
  unfold SafetyFilter.check_input
  cases hf : harmfulPatterns.find? (fun p => p.search content) with
  | some p => rfl
  | none =>
    obtain ⟨p, hp, hs⟩ := h
    have hnone := List.find?_eq_none.mp hf p hp
    simp [hs] at hnone

/-- When no harmful pattern matches and `p` is the first matching
personal-info pattern, `check_input` stays safe and redacts with `p`
alone. -/
theorem check_input_of_personal (content : String) (p : RE)
    (hh : ∀ q ∈ harmfulPatterns, q.search content = false)
    (hp : personalPatterns.find? (fun q => q.search content) = some p) :
    SafetyFilter.check_input content =
      { is_safe := true
        violation_type := .personal_info
        message := some "Personal information detected and redacted"
        redacted_content := some (p.sub "[REDACTED]" content) } := by
  unfold SafetyFilter.check_input
  rw [List.find?_eq_none.mpr (fun q hq => by simp [hh q hq]), hp]

/-- A turn with a recognised role string (default `"user"`) maps to this
message. -/
def turnMessage (t : Turn) : Message :=
  { role := (MessageRole.ofValue (t.role.getD "user")).getD .user
    content := t.content.getD "" }

/-- When every history turn carries a recognised role, the history loop
succeeds and preserves order, roles and contents. -/
theorem historyMessages_ok : ∀ (l : List Turn),
    (∀ t ∈ l, (MessageRole.ofValue (t.role.getD "user")).isSome) →
    historyMessages l = Except.ok (l.map turnMessage) := by
  intro l
  induction l with
  | nil => intro _; rfl
  | cons t rest ih =>
    intro h
    obtain ⟨role, hrole⟩ :=
      Option.isSome_iff_exists.mp (h t (List.mem_cons_self t rest))
    have hrest := ih (fun u hu => h u (List.mem_cons_of_mem t hu))
    simp [historyMessages, hrole, hrest, turnMessage]

/-- Characterisation of the `_convert_messages` loop: the final
`system_prompt` is the last system message seen (or the incoming value),
and non-system messages are appended in order. -/
theorem convertMessagesLoop_spec : ∀ (ms : List Message)
    (sys : Option String) (acc : List (String × String)),
    convertMessagesLoop sys acc ms =
      ((match lastSystemContent ms with
        | some c => some c
        | Option.none => sys),
       acc ++ nonSystemPairs ms) := by
  intro ms
  induction ms with
  | nil => intro sys acc; simp [convertMessagesLoop, lastSystemContent, nonSystemPairs]
  | cons m rest ih =>
    intro sys acc
    by_cases hm : m.role = .system
    · cases hrest : lastSystemContent rest with
      | some c => simp [convertMessagesLoop, hm, ih, lastSystemContent, hrest, nonSystemPairs]
      | none => simp [convertMessagesLoop, hm, ih, lastSystemContent, hrest, nonSystemPairs]
    · cases hrest : lastSystemContent rest with
      | some c => simp [convertMessagesLoop, hm, ih, lastSystemContent, hrest, nonSystemPairs]
      | none => simp [convertMessagesLoop, hm, ih, lastSystemContent, hrest, nonSystemPairs]

/-- The tenacity predicate never holds after the exception
translation in the body: translated errors belong to the application taxonomy, which
is outside the SDK `RateLimitError`/`APIError` hierarchy. -/
theorem retryPredicate_translate (e : PyExc) :
    retryPredicate (openaiTranslate e) = false := by
  cases e <;> rfl

/-! ### The claims -/

set_option maxRecDepth 8000

/-- C3: for every input string that matches at least one harmful-content
pattern, `check_input` returns `is_safe=false` with
`violation_type=harmful_content` and no `redacted_content`, even when the
input also matches personal-info patterns. -/
theorem C3_harmful_precedence (content : String)
    (h : ∃ p ∈ harmfulPatterns, p.search content = true) :
    SafetyFilter.check_input content =
      { is_safe := false
        violation_type := .harmful_content
        message := some "Content flagged for safety review"
        redacted_content := Option.none } :=
  check_input_of_harmful content h

/-- Witness for C3 at the example given in the spec, which matches both a harmful
pattern and the e-mail pattern. -/
theorem C3_harmful_precedence_witness :
    (∃ p ∈ harmfulPatterns,
        p.search "I want to hurt myself, my email is a@b.com" = true) ∧
    emailPattern.search "I want to hurt myself, my email is a@b.com" = true ∧
    SafetyFilter.check_input "I want to hurt myself, my email is a@b.com" =
      { is_safe := false
        violation_type := .harmful_content
        message := some "Content flagged for safety review"
        redacted_content := Option.none } :=
  ⟨by decide, by decide, C3_harmful_precedence _ (by decide)⟩

/-- C4 counterexample: `"a@b.com 555-12-3456"` matches the e-mail and
SSN-shaped patterns and no harmful pattern, yet `check_input` redacts only
the e-mail span — the SSN-shaped span survives in `redacted_content`
(so not every matched personal-info span across all patterns is replaced,
and the result differs from the all-pattern redaction of
`sanitize_input`). -/
theorem C4_counterexample :
    ssnPattern.search "a@b.com 555-12-3456" = true ∧
    SafetyFilter.check_input "a@b.com 555-12-3456" =
      { is_safe := true
        violation_type := .personal_info
        message := some "Personal information detected and redacted"
        redacted_content := some "[REDACTED] 555-12-3456" } ∧
    ssnPattern.search "[REDACTED] 555-12-3456" = true ∧
    SafetyFilter.sanitize_input "a@b.com 555-12-3456" =
      "[REDACTED] [REDACTED]" := by
  refine ⟨by decide, by decide, by decide, by decide⟩

/-- C4 (amended): on input matching no harmful pattern, `check_input`
redacts with the **first** matching personal-info pattern only (in the
fixed order phone, e-mail, SSN-shaped, card-shaped): the result is
`is_safe=true`, `violation_type=personal_info`, and `redacted_content`
equal to the input with every span matched by that first matching pattern
replaced by the literal marker; spans matched only by later patterns are
left intact. -/
theorem C4_redaction_first_pattern (content : String) (p : RE)
    (hh : ∀ q ∈ harmfulPatterns, q.search content = false)
    (hp : personalPatterns.find? (fun q => q.search content) = some p) :
    SafetyFilter.check_input content =
      { is_safe := true
        violation_type := .personal_info
        message := some "Personal information detected and redacted"
        redacted_content := some (p.sub "[REDACTED]" content) } :=
  check_input_of_personal content p hh hp

/-- Witness for C4 (amended) at the redaction example of the spec. -/
theorem C4_redaction_first_pattern_witness :
    (∀ q ∈ harmfulPatterns, q.search "Call 555-123-4567" = false) ∧
    personalPatterns.find? (fun q => q.search "Call 555-123-4567") =
      some phonePattern ∧
    SafetyFilter.check_input "Call 555-123-4567" =
      { is_safe := true
        violation_type := .personal_info
        message := some "Personal information detected and redacted"
        redacted_content := some (phonePattern.sub "[REDACTED]" "Call 555-123-4567") } ∧
    phonePattern.sub "[REDACTED]" "Call 555-123-4567" = "Call [REDACTED]" :=
  ⟨by decide, by rfl,
   C4_redaction_first_pattern _ phonePattern (by decide) (by rfl), by decide⟩

/-- The spans the substitution scanner replaces (the matches that the Python
`sub`/`findall` visit, left to right, non-overlapping). -/
def RE.matchedSpans (re : RE) : Nat → Option Char → List Char → List (List Char)
  | 0, _, _ => []
  | fuel + 1, prev, s =>
    match re.matchAt prev s with
    | none =>
      match s with
      | [] => []
      | c :: rest => re.matchedSpans fuel (some c) rest
    | some 0 =>
      match s with
      | [] => []
      | c :: rest => re.matchedSpans fuel (some c) rest
    | some (n + 1) =>
      s.take (n + 1) :: re.matchedSpans fuel ((s.take (n + 1)).getLast?) (s.drop (n + 1))

/-- The placeholder paths of a template: group 1 (braces stripped) of each
span `substitute` would replace — `findall` of `VARIABLE_PATTERN`, before
deduplication. -/
def templatePlaceholders (template : String) : List String :=
  (VARIABLE_PATTERN.matchedSpans (template.length + 1) Option.none template.toList).map
    (fun m => String.mk ((m.drop 2).dropLast.dropLast))

/-- One-step unfolding of `matchedSpans` at positive fuel. -/
theorem RE.matchedSpans_succ (re : RE) (fuel : Nat) (prev : Option Char) (s : List Char) :
    re.matchedSpans (fuel + 1) prev s =
      match re.matchAt prev s with
      | none =>
        match s with
        | [] => []
        | c :: rest => re.matchedSpans fuel (some c) rest
      | some 0 =>
        match s with
        | [] => []
        | c :: rest => re.matchedSpans fuel (some c) rest
      | some (n + 1) =>
        s.take (n + 1) :: re.matchedSpans fuel ((s.take (n + 1)).getLast?) (s.drop (n + 1)) :=
  rfl

/-- If the replacement function fixes every span the scanner visits, the
substitution is the identity. -/
theorem RE.subAuxF_id_of_spans (re : RE) (repl : List Char → List Char) :
    ∀ fuel prev s, (∀ m ∈ re.matchedSpans fuel prev s, repl m = m) →
      re.subAuxF repl fuel prev s = s := by
  intro fuel
  induction fuel with
  | zero => intro prev s _; rfl
  | succ n ih =>
    intro prev s h
    unfold RE.subAuxF
    rw [RE.matchedSpans_succ] at h
    cases hm : re.matchAt prev s with
    | none =>
      rw [hm] at h
      cases s with
      | nil => rfl
      | cons c rest => simp [ih _ _ h]
    | some k =>
      rw [hm] at h
      cases k with
      | zero =>
        cases s with
        | nil => rfl
        | cons c rest => simp [ih _ _ h]
      | succ n2 =>
        have hhead := h _ (List.mem_cons_self _ _)
        have htail := fun m hm2 => h m (List.mem_cons_of_mem _ hm2)
        simp [hhead, ih _ _ htail, List.take_append_drop]

/-- C9: for every template all of whose placeholders fail to resolve,
`substitute` returns the template text unchanged, leaving each original
placeholder intact. -/
theorem C9_substitute_missing_keys (template : String) (vars : Value)
    (h : ∀ path ∈ templatePlaceholders template,
      TemplateEngine.getNestedValue vars path = Option.none) :
    TemplateEngine.substitute template vars = template := by
  unfold TemplateEngine.substitute RE.subF
  rw [RE.subAuxF_id_of_spans]
  · exact String.mk_toList template
  · intro m hm
    unfold replaceVar
    rw [h (String.mk ((m.drop 2).dropLast.dropLast)) (List.mem_map_of_mem _ hm)]

/-- Witness for C9: the instance named by the claim, `substitute(t, {})` — every
lookup in the empty context fails, and a template of unknown placeholders
comes back verbatim (`\x7b`/`\x7d` are braces). -/
theorem C9_substitute_missing_keys_witness :
    (∀ path ∈ templatePlaceholders "Hello \x7b\x7bname\x7d\x7d, score \x7b\x7br.s\x7d\x7d",
      TemplateEngine.getNestedValue (.vdict []) path = Option.none) ∧
    TemplateEngine.substitute "Hello \x7b\x7bname\x7d\x7d, score \x7b\x7br.s\x7d\x7d" (.vdict []) =
      "Hello \x7b\x7bname\x7d\x7d, score \x7b\x7br.s\x7d\x7d" :=
  ⟨fun path _ => getNestedValue_empty path,
   C9_substitute_missing_keys _ _ (fun path _ => getNestedValue_empty path)⟩


/-- For a history of recognised roles, `build_messages` succeeds with the
fixed structure: safety prompt, optional rendered system prompt, history,
current user message. -/
theorem build_messages_ok (pipeline : Pipeline) (context : Value)
    (history : List Turn) (user_message : String)
    (h : ∀ t ∈ history, (MessageRole.ofValue (t.role.getD "user")).isSome) :
    PipelineEngine.build_messages pipeline context history user_message =
      Except.ok
        ([{ role := .system, content := SafetyFilter.get_safety_system_prompt }] ++
          pipelineSystemMessages pipeline context ++
          history.map turnMessage ++
          [{ role := .user, content := user_message }]) := by
  unfold PipelineEngine.build_messages
  rw [historyMessages_ok history h]

/-- C5 counterexample: a history turn whose role string is not a recognised
`MessageRole` value makes `build_messages` raise `ValueError` instead of
returning a message list, so `build_messages` does not return the stated
list for *every* history (`\x27` is an apostrophe). -/
theorem C5_counterexample :
    PipelineEngine.build_messages {} (.vdict [])
      [{ role := some "coach", content := some "hi" }] "hello" =
      Except.error "\x27coach\x27 is not a valid MessageRole" := by
  rfl

/-- C5 (amended): for every pipeline, context, user message, and history
whose turns all carry recognised role strings (defaulting to `"user"`),
`build_messages` returns exactly: the fixed safety system prompt first;
then, when the pipeline defines a non-empty system prompt, its rendering
against the context as a second system message; then every history turn in
order with role and content preserved; then the current user message as
the final user-role message. -/
theorem C5_message_order (pipeline : Pipeline) (context : Value)
    (history : List Turn) (user_message : String)
    (h : ∀ t ∈ history, (MessageRole.ofValue (t.role.getD "user")).isSome) :
    PipelineEngine.build_messages pipeline context history user_message =
      Except.ok
        ([{ role := .system, content := SafetyFilter.get_safety_system_prompt }] ++
          pipelineSystemMessages pipeline context ++
          history.map turnMessage ++
          [{ role := .user, content := user_message }]) :=
  build_messages_ok pipeline context history user_message h

/-- Witness for C5 at a pipeline with a templated system prompt and a
two-turn history (`\x7b`/`\x7d` are braces). -/
theorem C5_message_order_witness :
    (∀ t ∈ [({ role := some "user", content := some "a" } : Turn),
            { role := some "assistant", content := some "b" }],
      (MessageRole.ofValue (t.role.getD "user")).isSome) ∧
    PipelineEngine.build_messages
      { system_prompt := some "You coach \x7b\x7bname\x7d\x7d." }
      (.vdict [("name", .vstr "Ann")])
      [{ role := some "user", content := some "a" },
       { role := some "assistant", content := some "b" }] "q" =
      Except.ok
        [{ role := .system, content := SAFETY_SYSTEM_PROMPT },
         { role := .system, content := "You coach Ann." },
         { role := .user, content := "a" },
         { role := .assistant, content := "b" },
         { role := .user, content := "q" }] :=
  ⟨by decide,
   (C5_message_order _ _ _ _ (by decide)).trans (by rfl)⟩

/-- C1 counterexample: with a history turn carrying an unrecognised role
string, `execute_round` lets the `ValueError` from message building escape
instead of returning a `PipelineExecutionResult` — the exception is raised
outside the `try` that guards only the LLM call. -/
theorem C1_counterexample :
    PipelineEngine.execute_round
      (fun _ _ => Except.ok
        { content := "ok", model := "m", provider := .openai,
          finish_reason := "stop", prompt_tokens := 1, completion_tokens := 1,
          total_tokens := 2, response_time_ms := 1 })
      {} (.vdict []) [{ role := some "coach", content := some "hi" }]
      "hello" Option.none =
      Except.error "\x27coach\x27 is not a valid MessageRole" := by
  rfl

/-- C1 (amended): `generate_initial_message` always returns a
`PipelineExecutionResult`; `execute_round` returns one for every history
whose turns carry recognised role strings, and any exception raised by the
LLM call is captured as `success=false` with the exception text — but an
invalid role string in the history makes `execute_round` itself raise
(see the counterexample). -/
theorem C1_exception_capture :
    (∀ (llm : List Message → LLMConfig → Except String LLMResponse)
        (pipeline : Pipeline) (context : Value) (config : Option LLMConfig),
      ∃ result, PipelineEngine.generate_initial_message llm pipeline context config =
        Except.ok result) ∧
    (∀ (llm : List Message → LLMConfig → Except String LLMResponse)
        (pipeline : Pipeline) (context : Value) (history : List Turn)
        (user_message : String) (config : Option LLMConfig),
      (∀ t ∈ history, (MessageRole.ofValue (t.role.getD "user")).isSome) →
      ∃ result, PipelineEngine.execute_round llm pipeline context history
        user_message config = Except.ok result) ∧
    (∀ (e : String) (pipeline : Pipeline) (context : Value) (history : List Turn)
        (user_message : String) (config : Option LLMConfig),
      (∀ t ∈ history, (MessageRole.ofValue (t.role.getD "user")).isSome) →
      (SafetyFilter.check_input user_message).is_safe = true →
      PipelineEngine.execute_round (fun _ _ => Except.error e)
        pipeline context history user_message config =
        Except.ok { success := false, error := some e }) := by
  refine ⟨?_, ?_, ?_⟩
  · intro llm pipeline context config
    cases h : llm (PipelineEngine.initialMessages pipeline context)
        (PipelineEngine.initialConfig pipeline config) with
    | ok r =>
      exact ⟨_, by unfold PipelineEngine.generate_initial_message; rw [h]⟩
    | error e =>
      exact ⟨_, by unfold PipelineEngine.generate_initial_message; rw [h]⟩
  · intro llm pipeline context history user_message config hroles
    unfold PipelineEngine.execute_round
    by_cases hc : ¬ (SafetyFilter.check_input user_message).is_safe ∧
        (SafetyFilter.check_input user_message).violation_type = .harmful_content
    · rw [if_pos hc]
      exact ⟨_, rfl⟩
    · rw [if_neg hc, build_messages_ok _ _ _ _ hroles]
      exact ⟨_, rfl⟩
  · intro e pipeline context history user_message config hroles hsafe
    unfold PipelineEngine.execute_round
    rw [if_neg (by simp [hsafe]), build_messages_ok _ _ _ _ hroles]
    rfl

/-- Witness for C1: with a constantly failing LLM and a valid one-turn
history, both operations return results, and the LLM failure is captured
as `success=false` with its text. -/
theorem C1_exception_capture_witness :
    (∃ result, PipelineEngine.generate_initial_message
      (fun _ _ => Except.error "boom") {} (.vdict []) Option.none =
      Except.ok result) ∧
    (∃ result, PipelineEngine.execute_round (fun _ _ => Except.error "boom")
      {} (.vdict []) [{ role := some "user", content := some "a" }]
      "hello" Option.none = Except.ok result) ∧
    ((∀ t ∈ [({ role := some "user", content := some "a" } : Turn)],
        (MessageRole.ofValue (t.role.getD "user")).isSome) ∧
      (SafetyFilter.check_input "hello").is_safe = true ∧
      PipelineEngine.execute_round (fun _ _ => Except.error "boom")
        {} (.vdict []) [{ role := some "user", content := some "a" }]
        "hello" Option.none =
        Except.ok { success := false, error := some "boom" }) :=
  ⟨C1_exception_capture.1 _ {} (.vdict []) Option.none,
   C1_exception_capture.2.1 _ {} (.vdict []) _ "hello" Option.none (by decide),
   by decide,
   by decide,
   C1_exception_capture.2.2 "boom" {} (.vdict []) _ "hello" Option.none
     (by decide) (by decide)⟩

/-- C2: for every user message matching a harmful-content pattern,
`execute_round` returns `success=true`, `used_fallback=true`, the canned
`harmful_content` fallback text, and no `llm_response` — and the result is
identical for any two LLM services, so the LLM is never consulted. -/
theorem C2_harmful_fallback_bypass
    (llm llm2 : List Message → LLMConfig → Except String LLMResponse)
    (pipeline : Pipeline) (context : Value) (history : List Turn)
    (user_message : String) (config : Option LLMConfig)
    (h : ∃ p ∈ harmfulPatterns, p.search user_message = true) :
    PipelineEngine.execute_round llm pipeline context history user_message config =
      Except.ok
        { success := true
          response := SafetyFilter.get_fallback_response .harmful_content
          llm_response := Option.none
          safety_check := some (SafetyFilter.check_input user_message)
          error := Option.none
          used_fallback := true } ∧
    PipelineEngine.execute_round llm pipeline context history user_message config =
      PipelineEngine.execute_round llm2 pipeline context history user_message config := by
  have hci := check_input_of_harmful user_message h
  have main : ∀ (l : List Message → LLMConfig → Except String LLMResponse),
      PipelineEngine.execute_round l pipeline context history user_message config =
        Except.ok
          { success := true
            response := SafetyFilter.get_fallback_response .harmful_content
            llm_response := Option.none
            safety_check := some (SafetyFilter.check_input user_message)
            error := Option.none
            used_fallback := true } := by
    intro l
    unfold PipelineEngine.execute_round
    rw [hci]
    rfl
  exact ⟨main llm, (main llm).trans (main llm2).symm⟩

/-- Witness for C2 at the message named by the spec, with two observably different
LLM services (one failing, one succeeding). -/
theorem C2_harmful_fallback_bypass_witness :
    (∃ p ∈ harmfulPatterns, p.search "I want to kill myself" = true) ∧
    PipelineEngine.execute_round (fun _ _ => Except.error "llm down")
      {} (.vdict []) [] "I want to kill myself" Option.none =
      Except.ok
        { success := true
          response := SafetyFilter.get_fallback_response .harmful_content
          llm_response := Option.none
          safety_check := some (SafetyFilter.check_input "I want to kill myself")
          error := Option.none
          used_fallback := true } ∧
    PipelineEngine.execute_round (fun _ _ => Except.error "llm down")
      {} (.vdict []) [] "I want to kill myself" Option.none =
      PipelineEngine.execute_round
        (fun _ _ => Except.ok
          { content := "ok", model := "m", provider := .openai,
            finish_reason := "stop", prompt_tokens := 1, completion_tokens := 1,
            total_tokens := 2, response_time_ms := 1 })
        {} (.vdict []) [] "I want to kill myself" Option.none :=
  ⟨by decide,
   (C2_harmful_fallback_bypass (fun _ _ => Except.error "llm down")
     (fun _ _ => Except.ok
       { content := "ok", model := "m", provider := .openai,
         finish_reason := "stop", prompt_tokens := 1, completion_tokens := 1,
         total_tokens := 2, response_time_ms := 1 })
     {} (.vdict []) [] "I want to kill myself" Option.none (by decide)).1,
   (C2_harmful_fallback_bypass (fun _ _ => Except.error "llm down")
     (fun _ _ => Except.ok
       { content := "ok", model := "m", provider := .openai,
         finish_reason := "stop", prompt_tokens := 1, completion_tokens := 1,
         total_tokens := 2, response_time_ms := 1 })
     {} (.vdict []) [] "I want to kill myself" Option.none (by decide)).2⟩

/-- C10: `generate_initial_message` never applies the output safety filter:
whenever the LLM call succeeds, the result is `success=true` with the
raw model content, `used_fallback=false` and `safety_check=None`,
whatever the content says. -/
theorem C10_initial_message_unscreened
    (llm : List Message → LLMConfig → Except String LLMResponse)
    (pipeline : Pipeline) (context : Value) (config : Option LLMConfig)
    (r : LLMResponse)
    (h : llm (PipelineEngine.initialMessages pipeline context)
      (PipelineEngine.initialConfig pipeline config) = Except.ok r) :
    PipelineEngine.generate_initial_message llm pipeline context config =
      Except.ok
        { success := true
          response := some r.content
          llm_response := some r
          safety_check := Option.none
          error := Option.none
          used_fallback := false } := by
  unfold PipelineEngine.generate_initial_message
  rw [h]

/-- Witness for C10 with a model output that the round-level output screen
would flag as medical advice: the initial message passes it through raw,
unscreened (`safety_check=None`). -/
theorem C10_initial_message_unscreened_witness :
    (((fun _ _ => Except.ok
        { content := "You are diagnosed with flu", model := "m",
          provider := .openai, finish_reason := "stop", prompt_tokens := 1,
          completion_tokens := 1, total_tokens := 2, response_time_ms := 1 }) :
        List Message → LLMConfig → Except String LLMResponse)
      (PipelineEngine.initialMessages {} (.vdict []))
      (PipelineEngine.initialConfig {} Option.none) =
      Except.ok
        { content := "You are diagnosed with flu", model := "m",
          provider := .openai, finish_reason := "stop", prompt_tokens := 1,
          completion_tokens := 1, total_tokens := 2, response_time_ms := 1 }) ∧
    (SafetyFilter.check_output "You are diagnosed with flu").is_safe = false ∧
    PipelineEngine.generate_initial_message
      (fun _ _ => Except.ok
        { content := "You are diagnosed with flu", model := "m",
          provider := .openai, finish_reason := "stop", prompt_tokens := 1,
          completion_tokens := 1, total_tokens := 2, response_time_ms := 1 })
      {} (.vdict []) Option.none =
      Except.ok
        { success := true
          response := some "You are diagnosed with flu"
          llm_response := some
            { content := "You are diagnosed with flu", model := "m",
              provider := .openai, finish_reason := "stop", prompt_tokens := 1,
              completion_tokens := 1, total_tokens := 2, response_time_ms := 1 }
          safety_check := Option.none
          error := Option.none
          used_fallback := false } :=
  ⟨rfl, by decide,
   C10_initial_message_unscreened _ {} (.vdict []) Option.none _ rfl⟩

/-- C6 counterexample: with two system messages, `_convert_messages` puts
the content of the **last** one into the system parameter, not the first —
each system message overwrites the variable. -/
theorem C6_counterexample :
    (AnthropicClient.convertMessages
      [{ role := .system, content := "A" }, { role := .system, content := "B" },
       { role := .user, content := "x" }]).1 = some "B" ∧
    (([({ role := .system, content := "A" } : Message),
       { role := .system, content := "B" },
       { role := .user, content := "x" }].find?
        (fun m => m.role == .system)).map Message.content = some "A") ∧
    (AnthropicClient.convertMessages
      [{ role := .system, content := "A" }, { role := .system, content := "B" },
       { role := .user, content := "x" }]).1 ≠ some "A" := by
  refine ⟨rfl, rfl, by decide⟩

/-- C6 (amended): for every message list, the Anthropic request conversion
returns the content of the **last** system-role message (when any is
present) as the separate system parameter, and exactly the
user/assistant-role messages, in their original order, as the main
message list. -/
theorem C6_convert_messages (messages : List Message) :
    AnthropicClient.convertMessages messages =
      (lastSystemContent messages, nonSystemPairs messages) := by
  unfold AnthropicClient.convertMessages
  rw [convertMessagesLoop_spec]
  cases h : lastSystemContent messages with
  | some c => simp
  | none => simp

/-- C7: the retry policy never fires. The decorated `generate_response`
makes exactly one attempt and sleeps through no backoff wait, whatever the
backend does: the retry predicate tests for the SDK exception classes,
but the body has already translated every SDK error into the
application taxonomy.  In particular a backend failing with the SDK
rate-limit error is not retried: the translated application-level
rate-limit error (status 429, retry-after 60) is raised after attempt 1. -/
theorem C7_no_retry :
    (∀ backend : Nat → Except PyExc LLMResponse,
      (OpenAIClient.generate_response backend).2.1 = 1 ∧
      (OpenAIClient.generate_response backend).2.2 = []) ∧
    OpenAIClient.generate_response
      (fun _ => Except.error (.sdkRateLimit "Rate limit exceeded")) =
      (Except.error (.appRateLimit "Rate limit exceeded" 429 60), 1, []) := by
  constructor
  · intro backend
    unfold OpenAIClient.generate_response tenacityRun
    cases hb : openaiAttempt backend 0 with
    | ok r => exact ⟨rfl, rfl⟩
    | error e =>
      have he : retryPredicate e = false := by
        cases hb2 : backend 0 with
        | ok r => rw [openaiAttempt, hb2] at hb; exact absurd hb (by simp)
        | error e0 =>
          rw [openaiAttempt, hb2] at hb
          have : e = openaiTranslate e0 := by
            simpa using hb.symm
          rw [this]
          exact retryPredicate_translate e0
      simp [he]
  · rfl

/-- C8 counterexample: with `max_rounds=2` there are no two successive
accepted message rounds — the round counter starts at 1 when the session
is created, so the first successful round already reaches `max_rounds`,
completes the session, and the second round is rejected. -/
theorem C8_counterexample :
    ¬ ∃ s1 s2, sendMessage (startCoachingSession 2) = Except.ok s1 ∧
      sendMessage s1 = Except.ok s2 := by
  rintro ⟨s1, s2, h1, h2⟩
  have hfirst : sendMessage (startCoachingSession 2) =
      Except.ok ({ status := .completed, current_round := 2, max_rounds := 2 } :
        CoachingSession) := rfl
  rw [hfirst] at h1
  have hs1 : s1 = { status := .completed, current_round := 2, max_rounds := 2 } :=
    ((Except.ok.injEq _ _).mp h1).symm
  rw [hs1] at h2
  have hsecond : sendMessage
      ({ status := .completed, current_round := 2, max_rounds := 2 } :
        CoachingSession) =
      Except.error "Coaching session is completed" := rfl
  rw [hsecond] at h2
  exact Except.noConfusion h2

/-- C8 (amended): for a session created with `max_rounds=2` (round counter
initialized to 1, status active), the **first** successful message round is
accepted and completes the session (the counter reaches `max_rounds`), and
already the **second** message round is rejected by the caller-enforced
precondition. -/
theorem C8_round_budget :
    startCoachingSession 2 =
      { status := .active, current_round := 1, max_rounds := 2 } ∧
    sendMessage (startCoachingSession 2) =
      Except.ok { status := .completed, current_round := 2, max_rounds := 2 } ∧
    sendMessage { status := .completed, current_round := 2, max_rounds := 2 } =
      Except.error "Coaching session is completed" :=
  ⟨rfl, rfl, rfl⟩
